import Mathlib

/-!
Formal model of the upwind-app services (suggestion, related, multiagent).

Each Python function of the three FastAPI apps that the verified claims
touch is translated into an executable Lean definition:

* floats become rationals (`ℚ`), Python `round(x, 4)` becomes `round4`;
* each call to `random.uniform` is replaced by an explicit parameter
  (a draw, or a `ℕ → ℚ` family of draws indexed by loop position), so a
  theorem quantifying over the parameter covers every possible draw;
* Python list slicing `l[:n]` (which also accepts negative `n`) becomes
  `pySlice`;
* `raise HTTPException` becomes an `Except ServiceError` result
  (status 400 ↦ `invalidArgument`, 504 ↦ `dispatchTimeout`);
* `list.sort(key=..., reverse=True)` (a stable descending sort) becomes
  `List.insertionSort` with the relation `scoreDescRel`, which is the
  same stable descending sort;
* `asyncio.wait_for(asyncio.gather(tasks), timeout)` over tasks that
  each `await asyncio.sleep(delay_i)` is modelled by comparing `timeout`
  with the largest of the drawn delays: the batch succeeds in full iff
  every simulated sleep fits inside the deadline, and otherwise the whole
  dispatch fails with no partial results.
-/

/-- Python `round(x, 4)`: round to 4 decimal places.  (Python uses
round-half-to-even; `round` here is round-half-up.  The two agree except
when `x * 10000` is an exact odd multiple of `1/2`, which no bound proved
below depends on.) -/
def round4 (x : ℚ) : ℚ := (round (x * 10000) : ℤ) / 10000

/-- Python slicing `l[:n]` for an arbitrary (possibly negative) integer
`n`: a nonnegative `n` keeps the first `n` elements; a negative `n` drops
the last `-n` elements. -/
def pySlice {α : Type} (n : Int) (l : List α) : List α :=
  if 0 ≤ n then l.take n.toNat else l.take (l.length - (-n).toNat)

/-- Helper for `pyWords`: splits a character stream at whitespace runs,
dropping empty fragments, exactly like Python `str.split()` with no
arguments.  `acc` holds the (reversed) characters of the word in
progress. -/
def wordsAux : List Char → List Char → List String
  | [], acc => if acc.isEmpty then [] else [String.mk acc.reverse]
  | c :: cs, acc =>
    if c.isWhitespace then
      (if acc.isEmpty then wordsAux cs [] else String.mk acc.reverse :: wordsAux cs [])
    else wordsAux cs (c :: acc)

/-- Python `s.lower().split()`: lower-case, then split on whitespace with
empty fragments dropped. -/
def pyWords (s : String) : List String := wordsAux (s.data.map Char.toLower) []

/-- Python `set(s.lower().split())`, represented as a duplicate-free list
(only membership and cardinality of the set are ever used). -/
def wordSet (s : String) : List String := (pyWords s).dedup

/-- Python truthiness test `not s or len(s.strip()) == 0` on a string:
true iff the string is empty or all-whitespace. -/
def isBlank (s : String) : Bool := s.data.all Char.isWhitespace

/-- The error taxonomy of the services, as surfaced through
`HTTPException` status codes: 400 for a rejected argument, 504 for the
orchestrator's overall join deadline expiring. -/
inductive ServiceError : Type
  | invalidArgument
  | dispatchTimeout
  deriving DecidableEq, Repr

deriving instance DecidableEq for Except

/-- The comparison used by `l.sort(key=lambda x: x.score, reverse=True)`:
`a` may precede `b` iff `a`'s score is at least `b`'s. -/
def scoreDescRel {α : Type} (f : α → ℚ) : α → α → Prop := fun a b => f b ≤ f a

instance {α : Type} (f : α → ℚ) : DecidableRel (scoreDescRel f) :=
  fun a b => inferInstanceAs (Decidable (f b ≤ f a))

instance {α : Type} (f : α → ℚ) : IsTotal α (scoreDescRel f) :=
  ⟨fun a b => le_total (f b) (f a)⟩

instance {α : Type} (f : α → ℚ) : IsTrans α (scoreDescRel f) :=
  ⟨fun _ _ _ h1 h2 => le_trans h2 h1⟩

/-- Python `l.sort(key=lambda x: score(x), reverse=True)`: a stable sort,
descending by score, ties left in their original order.  Insertion sort
with `scoreDescRel` has exactly this behaviour. -/
def sortByScoreDesc {α : Type} (f : α → ℚ) (l : List α) : List α :=
  l.insertionSort (scoreDescRel f)

namespace Related

/-- One entry of the static corpus (src/related/app.py, CONTENT_DATABASE). -/
structure ContentItem : Type where
  text : String
  category : String
  deriving DecidableEq, Repr

/-- The fixed 15-entry corpus of src/related/app.py, lines 39-55. -/
def CONTENT_DATABASE : List ContentItem := [
  { text := "Machine learning algorithms for prediction", category := "ML" },
  { text := "Deep learning neural networks", category := "AI" },
  { text := "Natural language processing techniques", category := "NLP" },
  { text := "Computer vision and image recognition", category := "CV" },
  { text := "Data preprocessing and cleaning", category := "Data" },
  { text := "Feature engineering best practices", category := "Data" },
  { text := "Model evaluation and metrics", category := "ML" },
  { text := "Deployment strategies for ML models", category := "MLOps" },
  { text := "Kubernetes orchestration patterns", category := "DevOps" },
  { text := "Docker containerization guide", category := "DevOps" },
  { text := "CI/CD pipeline automation", category := "DevOps" },
  { text := "Cloud infrastructure management", category := "Cloud" },
  { text := "API design and best practices", category := "API" },
  { text := "Microservices architecture patterns", category := "Architecture" },
  { text := "Database optimization techniques", category := "Database" }]

/-- src/related/app.py, lines 58-76 (`calculate_similarity`): Jaccard
overlap of the lower-cased word sets, plus the drawn `noise` (the code
draws `random.uniform(-0.1, 0.1)`), plus the constant bias `0.3`, clamped
into `[0, 1]`; `0.0` outright when either word set is empty. -/
def calculate_similarity (noise : ℚ) (query text : String) : ℚ :=
  let query_words := wordSet query
  let text_words := wordSet text
  if query_words = [] ∨ text_words = [] then 0
  else
    let inter := (query_words.filter (fun w => w ∈ text_words)).length
    let union := query_words.length + (text_words.filter (fun w => w ∉ query_words)).length
    let base : ℚ := if union = 0 then 0 else (inter : ℚ) / (union : ℚ)
    max 0 (min 1 (base + noise + 3/10))

/-- One scored result of the `/related` endpoint. -/
structure RelatedItem : Type where
  text : String
  score : ℚ
  category : String
  deriving DecidableEq, Repr

/-- src/related/app.py, lines 129-138: score every corpus entry (the
`noise` family gives the random draw used at each corpus position), keep
those whose (unrounded) score reaches `threshold`, storing the score
rounded to 4 decimal places.  The list is in corpus order. -/
def scoredItems (noise : ℕ → ℚ) (query : String) (threshold : ℚ) : List RelatedItem :=
  CONTENT_DATABASE.enum.filterMap (fun p =>
    let score := calculate_similarity (noise p.1) query p.2.text
    if threshold ≤ score then
      some { text := p.2.text, score := round4 score, category := p.2.category }
    else none)

/-- src/related/app.py, lines 118-146 (`find_related`): reject a blank
query with 400, otherwise score, filter, sort descending (stable), and
truncate with `[:max_results]`. -/
def find_related (noise : ℕ → ℚ) (query : String) (max_results : Int)
    (threshold : ℚ) : Except ServiceError (List RelatedItem) :=
  if isBlank query then .error .invalidArgument
  else .ok (pySlice max_results (sortByScoreDesc RelatedItem.score (scoredItems noise query threshold)))

/-- Modelled from the spec (section 4.2): the similarity score as the
spec words it — "token-set overlap ratio (intersection size / union size
of the lower-cased, whitespace-tokenized word sets of query and candidate
— size of each word set must be non-empty, else score is 0), plus a
bounded random perturbation, plus a fixed positive bias constant; final
score clamped to [0,1]" — written with genuine finite sets, to be
compared with `calculate_similarity` above. -/
def specSimilarity (noise : ℚ) (query text : String) : ℚ :=
  let qs : Finset String := (pyWords query).toFinset
  let ts : Finset String := (pyWords text).toFinset
  if qs = ∅ ∨ ts = ∅ then 0
  else max 0 (min 1 ((qs ∩ ts).card / ((qs ∪ ts).card : ℚ) + noise + 3/10))

end Related

namespace Multiagent

/-- One static worker profile (src/multiagent/app.py, AGENT_PROFILES). -/
structure AgentProfile : Type where
  id : String
  name : String
  specialty : String
  approach : String
  deriving DecidableEq, Repr

/-- The five static profiles of src/multiagent/app.py, lines 48-79. -/
def AGENT_PROFILES : List AgentProfile := [
  { id := "analyzer", name := "Analytical Agent",
    specialty := "Data analysis and logical reasoning", approach := "analytical" },
  { id := "creative", name := "Creative Agent",
    specialty := "Creative problem solving", approach := "creative" },
  { id := "pragmatic", name := "Pragmatic Agent",
    specialty := "Practical solutions", approach := "pragmatic" },
  { id := "optimizer", name := "Optimizer Agent",
    specialty := "Performance optimization", approach := "optimization" },
  { id := "security", name := "Security Agent",
    specialty := "Security and risk assessment", approach := "security-focused" }]

/-- The `suggestions` dictionary lookup with its `.get` fallback inside
`agent_process` (src/multiagent/app.py, lines 92-100). -/
def agentSuggestion (agent_id query : String) : String :=
  if agent_id = "analyzer" then
    "Based on analysis of \x27" ++ query ++ "\x27, consider data-driven approach with metrics"
  else if agent_id = "creative" then
    "Innovative solution for \x27" ++ query ++ "\x27: think outside the box with novel methods"
  else if agent_id = "pragmatic" then
    "Practical approach to \x27" ++ query ++ "\x27: focus on immediate, actionable steps"
  else if agent_id = "optimizer" then
    "Optimized solution for \x27" ++ query ++ "\x27: maximize efficiency and minimize resources"
  else if agent_id = "security" then
    "Secure implementation of \x27" ++ query ++ "\x27: prioritize safety and risk mitigation"
  else
    "Agent " ++ agent_id ++ " suggests reviewing \x27" ++ query ++ "\x27 carefully"

/-- One worker's answer (the `AgentResponse` pydantic model). -/
structure AgentResponse : Type where
  agent_id : String
  suggestion : String
  confidence : ℚ
  reasoning : Option String
  deriving DecidableEq, Repr

/-- src/multiagent/app.py, lines 81-108 (`agent_process`): one unit of
worker processing.  `conf` is the draw the code takes with
`random.uniform(0.7, 0.95)`; the simulated sleep does not affect the
returned value and is accounted for in `multi_agent_suggest`. -/
def agent_process (conf : ℚ) (profile : AgentProfile) (query : String) : AgentResponse :=
  { agent_id := profile.id
    suggestion := agentSuggestion profile.id query
    confidence := round4 conf
    reasoning := some ("Based on " ++ profile.specialty ++ " perspective") }

/-- src/multiagent/app.py, lines 110-123 (`calculate_consensus`): the
fixed narrative statement plus the mean confidence rounded to 4 decimal
places; `(None, 0.0)` on an empty batch. -/
def calculate_consensus (responses : List AgentResponse) : Option String × ℚ :=
  if responses.isEmpty then (none, 0)
  else
    let avg := (responses.map AgentResponse.confidence).sum / (responses.length : ℚ)
    (some "Agents agree to combine analytical, creative, and practical approaches", round4 avg)

/-- The `/agents/suggest` response (the `MultiAgentResponse` pydantic model). -/
structure MultiAgentResponse : Type where
  agent_responses : List AgentResponse
  consensus : Option String
  consensus_score : ℚ
  query : String
  deriving DecidableEq, Repr

/-- The wall-clock instant at which `asyncio.gather` over `k` workers
finishes: the largest of the per-worker simulated sleeps (`delays i` is
the draw the code takes with `random.uniform(0.5, 2.0)` for worker `i`). -/
def batchElapsed (delays : ℕ → ℚ) (k : ℕ) : ℚ :=
  ((List.range k).map delays).foldr max 0

/-- src/multiagent/app.py, lines 164-208 (`multi_agent_suggest`): reject
an `agent_count` outside `[1, len(AGENT_PROFILES)]` with 400 before any
dispatch; otherwise dispatch the first `agent_count` profiles in
parallel and `asyncio.wait_for` the gathered batch: if the batch is not
done by `timeout` the whole dispatch fails with 504 (no partial
results), else every worker's response is returned together with the
consensus over exactly those responses. -/
def multi_agent_suggest (confs delays : ℕ → ℚ) (query : String)
    (agent_count : Int) (timeout : ℚ) : Except ServiceError MultiAgentResponse :=
  if agent_count < 1 ∨ (AGENT_PROFILES.length : Int) < agent_count then
    .error .invalidArgument
  else
    let selected := AGENT_PROFILES.take agent_count.toNat
    if timeout < batchElapsed delays selected.length then
      .error .dispatchTimeout
    else
      let responses := selected.enum.map (fun p => agent_process (confs p.1) p.2 query)
      let c := calculate_consensus responses
      .ok { agent_responses := responses, consensus := c.1,
            consensus_score := c.2, query := query }

/-- src/multiagent/app.py, lines 274-275: the clamp applied to
`voter_count` by `vote_on_solutions` — only values above
`len(AGENT_PROFILES)` are reduced; zero and negative values pass
through untouched. -/
def effectiveVoterCount (voter_count : Int) : Int :=
  if (AGENT_PROFILES.length : Int) < voter_count then (AGENT_PROFILES.length : Int)
  else voter_count

/-- src/multiagent/app.py, line 277: `voters = AGENT_PROFILES[:voter_count]`
after the clamp above. -/
def voteVoters (voter_count : Int) : List AgentProfile :=
  pySlice (effectiveVoterCount voter_count) AGENT_PROFILES

end Multiagent

namespace Suggestion

/-- One item of a suggestion response (the `SuggestionItem` pydantic model). -/
structure SuggestionItem : Type where
  text : String
  score : ℚ
  source : String
  deriving DecidableEq, Repr

/-- src/suggestion/app.py, lines 114-120: the five templated local
candidate texts for a query. -/
def base_suggestions (query : String) : List String := [
  "Consider " ++ query ++ " with additional context",
  "Alternative approach to " ++ query,
  "Best practices for " ++ query,
  "Related topics to " ++ query,
  "Advanced techniques for " ++ query]

/-- src/suggestion/app.py, lines 102-136 (`get_suggestions`): slice the
five templates with `[:max_results]` and attach scores `0.9 - idx*0.1`
and the provenance tag "suggestion".  The code has no validation of
`max_results` and no failure path. -/
def get_suggestions (query : String) (max_results : Int) : List SuggestionItem :=
  (pySlice max_results (base_suggestions query)).enum.map (fun p =>
    { text := p.2, score := 9/10 - (p.1 : ℚ) * (1/10), source := "suggestion" })

/-- The `/suggest/enhanced` response body. -/
structure EnhancedResponse : Type where
  suggestions : List SuggestionItem
  query : String
  sources_used : List String
  deriving DecidableEq, Repr

/-- src/suggestion/app.py, lines 142-203 (`get_enhanced_suggestions`):
always take the local suggestions; each optional dependency call is
wrapped in its own `try/except` and contributes only on a 200 response,
so its outcome is modelled as an `Option` (`none` = unreachable, timed
out, errored, or non-200 — the code then logs a warning and moves on).
Successful contributions are retagged ("related", "agent-<id>"), merged
with the local list, stable-sorted descending by score, cut to
`[:max_results]`; `sources_used` is the set of tags in the final list
(the code builds it with `list(set(...))`, so only its membership is
meaningful; we keep first-occurrence order). -/
def get_enhanced_suggestions (query : String) (max_results : Int)
    (relatedResp : Option (List Related.RelatedItem))
    (agentResp : Option (List Multiagent.AgentResponse)) : EnhancedResponse :=
  let base := get_suggestions query max_results
  let rel := (relatedResp.getD []).map (fun it =>
    { text := it.text, score := it.score, source := "related" : SuggestionItem })
  let ag := (agentResp.getD []).map (fun r =>
    { text := r.suggestion, score := r.confidence, source := "agent-" ++ r.agent_id : SuggestionItem })
  let all := base ++ rel ++ ag
  let final := pySlice max_results (sortByScoreDesc SuggestionItem.score all)
  { suggestions := final, query := query,
    sources_used := (final.map SuggestionItem.source).dedup }

end Suggestion

/-!
### Concrete runs referenced by witness theorems
-/

/-- The response of `multi_agent_suggest` for query "design a cache" with 3
workers, a 5 second deadline, every worker confidence drawn at `0.8` and
every worker delay drawn at `1`. -/
def C2run : Multiagent.MultiAgentResponse :=
  { agent_responses := [
      { agent_id := "analyzer",
        suggestion := "Based on analysis of \x27design a cache\x27, consider data-driven approach with metrics",
        confidence := 4/5,
        reasoning := some "Based on Data analysis and logical reasoning perspective" },
      { agent_id := "creative",
        suggestion := "Innovative solution for \x27design a cache\x27: think outside the box with novel methods",
        confidence := 4/5,
        reasoning := some "Based on Creative problem solving perspective" },
      { agent_id := "pragmatic",
        suggestion := "Practical approach to \x27design a cache\x27: focus on immediate, actionable steps",
        confidence := 4/5,
        reasoning := some "Based on Practical solutions perspective" }],
    consensus := some "Agents agree to combine analytical, creative, and practical approaches",
    consensus_score := 4/5,
    query := "design a cache" }

/-- The items returned by `find_related` for query "machine learning",
`max_results = 5`, `threshold = 0`, with every noise draw at `0`. -/
def C5run : List Related.RelatedItem := [
  { text := "Machine learning algorithms for prediction", score := 7/10, category := "ML" },
  { text := "Deep learning neural networks", score := 1/2, category := "AI" },
  { text := "Natural language processing techniques", score := 3/10, category := "NLP" },
  { text := "Computer vision and image recognition", score := 3/10, category := "CV" },
  { text := "Data preprocessing and cleaning", score := 3/10, category := "Data" }]

/-!
### Lemmas about the modelling helpers
-/

unseal Rat.add Rat.mul Rat.inv Rat.sub

lemma abs_round4_sub (x : ℚ) : |round4 x - x| ≤ 1/20000 := by
  have h := abs_sub_round (x * 10000)
  rw [round4]
  have e : (round (x * 10000) : ℚ)/10000 - x = -((x * 10000 - round (x * 10000))/10000) := by
    ring
  rw [e, abs_neg, abs_div, abs_of_pos (by norm_num : (0:ℚ) < 10000)]
  linarith

lemma round4_le (x : ℚ) : round4 x ≤ x + 1/20000 := by
  have h := abs_round4_sub x
  rw [abs_le] at h
  linarith [h.2]

lemma le_round4 (x : ℚ) : x - 1/20000 ≤ round4 x := by
  have h := abs_round4_sub x
  rw [abs_le] at h
  linarith [h.1]

lemma round4_mono {x y : ℚ} (h : x ≤ y) : round4 x ≤ round4 y := by
  rw [round4, round4]
  have hr : round (x * 10000) ≤ round (y * 10000) := by
    rw [round_eq, round_eq]
    exact Int.floor_mono (by linarith)
  have hc : ((round (x * 10000) : ℤ) : ℚ) ≤ ((round (y * 10000) : ℤ) : ℚ) := by
    exact_mod_cast hr
  linarith

lemma pySlice_pref {α : Type} (n : Int) (l : List α) : pySlice n l <+: l := by
  rw [pySlice]
  split <;> exact List.take_prefix _ _

lemma pySlice_sublist {α : Type} (n : Int) (l : List α) : List.Sublist (pySlice n l) l :=
  (pySlice_pref n l).sublist

lemma length_pySlice_le {α : Type} (n : Int) (l : List α) (h : 0 ≤ n) :
    ((pySlice n l).length : Int) ≤ n := by
  rw [pySlice, if_pos h, List.length_take]
  have h1 : min n.toNat l.length ≤ n.toNat := min_le_left _ _
  calc ((min n.toNat l.length : ℕ) : Int) ≤ (n.toNat : Int) := by exact_mod_cast h1
    _ = n := Int.toNat_of_nonneg h

lemma pySlice_ne_nil {α : Type} (n : Int) (l : List α) (h1 : 1 ≤ n) (h2 : l ≠ []) :
    pySlice n l ≠ [] := by
  rw [pySlice, if_pos (by omega)]
  have hk : n.toNat ≠ 0 := by omega
  simp only [ne_eq, List.take_eq_nil_iff]
  tauto

lemma headQ_take {α : Type} (l : List α) (k : ℕ) (h : 0 < k) :
    (l.take k).head? = l.head? := by
  cases l with
  | nil => simp
  | cons a t =>
    cases k with
    | zero => omega
    | succ m => simp [List.take]

lemma sortByScoreDesc_perm {α : Type} (f : α → ℚ) (l : List α) :
    List.Perm (sortByScoreDesc f l) l :=
  List.perm_insertionSort _ _

lemma sortByScoreDesc_sorted {α : Type} (f : α → ℚ) (l : List α) :
    List.Sorted (scoreDescRel f) (sortByScoreDesc f l) :=
  List.sorted_insertionSort _ _

lemma filter_orderedInsert_of_const {α : Type} (f : α → ℚ) (p : α → Bool) (s : ℚ)
    (hp : ∀ a, p a = true → f a = s) (x : α) (l : List α) :
    (List.orderedInsert (scoreDescRel f) x l).filter p =
      if p x then x :: l.filter p else l.filter p := by
  induction l with
  | nil => simp [List.orderedInsert, List.filter_cons]
  | cons y ys ih =>
    rw [List.orderedInsert]
    by_cases hxy : scoreDescRel f x y
    · rw [if_pos hxy]
      simp only [List.filter_cons]
    · rw [if_neg hxy, List.filter_cons, ih, List.filter_cons]
      by_cases hpx : p x = true
      · have hpy : p y = false := by
          by_contra hpy'
          have hy : p y = true := by
            revert hpy'
            cases p y <;> simp
          exact hxy (by rw [scoreDescRel, hp y hy, hp x hpx])
        simp [hpx, hpy]
      · simp [hpx]

lemma filter_sortByScoreDesc_of_const {α : Type} (f : α → ℚ) (p : α → Bool) (s : ℚ)
    (hp : ∀ a, p a = true → f a = s) (l : List α) :
    (sortByScoreDesc f l).filter p = l.filter p := by
  induction l with
  | nil => rfl
  | cons x xs ih =>
    rw [sortByScoreDesc, List.insertionSort,
      filter_orderedInsert_of_const f p s hp x _,
      show List.insertionSort (scoreDescRel f) xs = sortByScoreDesc f xs from rfl,
      ih, List.filter_cons]

lemma dedup_eq_single {α : Type} [DecidableEq α] (a : α) (l : List α) (h1 : l ≠ [])
    (h2 : ∀ x ∈ l, x = a) : l.dedup = [a] := by
  induction l with
  | nil => exact absurd rfl h1
  | cons x xs ih =>
    have hx : x = a := h2 x (by simp)
    subst hx
    by_cases hn : xs = []
    · subst hn
      simp
    · have hmem : x ∈ xs := by
        cases xs with
        | nil => exact absurd rfl hn
        | cons y ys =>
          have hy : y = x := h2 y (by simp)
          exact List.mem_cons.mpr (Or.inl hy.symm)
      rw [List.dedup_cons_of_mem hmem]
      exact ih hn (fun z hz => h2 z (List.mem_cons_of_mem _ hz))

lemma take_filter_pref {α : Type} (p : α → Bool) (l : List α) (k : ℕ) :
    (l.take k).filter p <+: l.filter p :=
  ⟨(l.drop k).filter p, by rw [← List.filter_append, List.take_append_drop]⟩

lemma sorted_head_max {α : Type} (f : α → ℚ) (x : α) (xs : List α)
    (h : List.Sorted (scoreDescRel f) (x :: xs)) : ∀ y ∈ x :: xs, f y ≤ f x := by
  intro y hy
  rcases List.mem_cons.mp hy with rfl | hy
  · exact le_refl _
  · exact (List.sorted_cons.mp h).1 y hy

open Related Multiagent Suggestion

/-!
### Lemmas about the similarity primitive and the ranking pipeline
-/

lemma calculate_similarity_def (n : ℚ) (q t : String) :
    calculate_similarity n q t =
      if wordSet q = [] ∨ wordSet t = [] then 0
      else
        max 0 (min 1 (
          (if (wordSet q).length + ((wordSet t).filter (fun w => w ∉ wordSet q)).length = 0
            then 0
            else (((wordSet q).filter (fun w => w ∈ wordSet t)).length : ℚ) /
              (((wordSet q).length +
                ((wordSet t).filter (fun w => w ∉ wordSet q)).length : ℕ) : ℚ))
          + n + 3/10)) := rfl

lemma clamp_le_of_le {x b : ℚ} (hb : 0 ≤ b) (h : x ≤ b) : max 0 (min 1 x) ≤ b :=
  max_le hb (le_trans (min_le_right 1 x) h)

lemma le_clamp_of_le {a x : ℚ} (ha1 : a ≤ 1) (h : a ≤ x) : a ≤ max 0 (min 1 x) :=
  le_max_of_le_right (le_min ha1 h)

lemma sim_disjoint (n : ℚ) (q t : String) (hq : wordSet q ≠ []) (ht : wordSet t ≠ [])
    (hd : (wordSet q).filter (fun w => w ∈ wordSet t) = []) :
    calculate_similarity n q t = max 0 (min 1 (n + 3/10)) := by
  rw [calculate_similarity_def, if_neg (not_or.mpr ⟨hq, ht⟩)]
  have hu : (wordSet q).length + ((wordSet t).filter (fun w => w ∉ wordSet q)).length ≠ 0 := by
    have := List.length_pos.mpr hq
    omega
  rw [if_neg hu, hd]
  norm_num

lemma simK (n : ℚ) :
    calculate_similarity n "kubernetes orchestration" "Kubernetes orchestration patterns" =
      max 0 (min 1 (2/3 + n + 3/10)) := by
  rw [calculate_similarity_def]
  have hq : wordSet "kubernetes orchestration" = ["kubernetes", "orchestration"] := by decide
  have ht : wordSet "Kubernetes orchestration patterns" =
      ["kubernetes", "orchestration", "patterns"] := by decide
  rw [hq, ht]
  rw [if_neg (by decide)]
  rw [show List.filter (fun w => w ∈ (["kubernetes", "orchestration", "patterns"] : List String))
      (["kubernetes", "orchestration"] : List String) = ["kubernetes", "orchestration"] from
      by decide]
  rw [show List.filter (fun w => w ∉ (["kubernetes", "orchestration"] : List String))
      (["kubernetes", "orchestration", "patterns"] : List String) = ["patterns"] from by decide]
  norm_num

lemma round4_clamp_noise_le (x : ℚ) (h : x ≤ 1/10) :
    round4 (max 0 (min 1 (x + 3/10))) ≤ 2/5 + 1/20000 := by
  refine le_trans (round4_le _) ?_
  have h2 : max 0 (min 1 (x + 3/10)) ≤ 2/5 := clamp_le_of_le (by norm_num) (by linarith)
  linarith

lemma enum_database : CONTENT_DATABASE.enum = [
    (0, { text := "Machine learning algorithms for prediction", category := "ML" }),
    (1, { text := "Deep learning neural networks", category := "AI" }),
    (2, { text := "Natural language processing techniques", category := "NLP" }),
    (3, { text := "Computer vision and image recognition", category := "CV" }),
    (4, { text := "Data preprocessing and cleaning", category := "Data" }),
    (5, { text := "Feature engineering best practices", category := "Data" }),
    (6, { text := "Model evaluation and metrics", category := "ML" }),
    (7, { text := "Deployment strategies for ML models", category := "MLOps" }),
    (8, { text := "Kubernetes orchestration patterns", category := "DevOps" }),
    (9, { text := "Docker containerization guide", category := "DevOps" }),
    (10, { text := "CI/CD pipeline automation", category := "DevOps" }),
    (11, { text := "Cloud infrastructure management", category := "Cloud" }),
    (12, { text := "API design and best practices", category := "API" }),
    (13, { text := "Microservices architecture patterns", category := "Architecture" }),
    (14, { text := "Database optimization techniques", category := "Database" })] := by
  decide

lemma scored_entry_eq (th s : ℚ) (txt cat : String) (b : RelatedItem)
    (h : (if th ≤ s then some { text := txt, score := round4 s, category := cat }
          else none) = some b) :
    th ≤ s ∧ b = { text := txt, score := round4 s, category := cat } := by
  split at h
  · exact ⟨by assumption, (Option.some.inj h).symm⟩
  · exact absurd h (by simp)

lemma mem_scoredItems (noise : ℕ → ℚ) (query : String) (threshold : ℚ)
    (b : RelatedItem) (hb : b ∈ scoredItems noise query threshold) :
    ∃ p : ℕ × ContentItem, p ∈ CONTENT_DATABASE.enum ∧
      threshold ≤ calculate_similarity (noise p.1) query p.2.text ∧
      b = { text := p.2.text,
            score := round4 (calculate_similarity (noise p.1) query p.2.text),
            category := p.2.category } := by
  rw [scoredItems] at hb
  obtain ⟨p, hp, hf⟩ := List.mem_filterMap.mp hb
  dsimp only [] at hf
  obtain ⟨h1, h2⟩ := scored_entry_eq _ _ _ _ _ hf
  exact ⟨p, hp, h1, h2⟩

lemma kubernetes_scored_classification (noise : ℕ → ℚ)
    (hb : ∀ i, -(1/10) ≤ noise i ∧ noise i ≤ 1/10) :
    ∀ b ∈ scoredItems noise "kubernetes orchestration" (3/10),
      b.text = "Kubernetes orchestration patterns" ∨ b.score ≤ 2/5 + 1/20000 := by
  intro b hmem
  obtain ⟨p, hp, _, hbeq⟩ := mem_scoredItems _ _ _ _ hmem
  rw [enum_database] at hp
  simp only [List.mem_cons, List.not_mem_nil, or_false] at hp
  subst hbeq
  rcases hp with rfl|rfl|rfl|rfl|rfl|rfl|rfl|rfl|rfl|rfl|rfl|rfl|rfl|rfl|rfl <;>
    first
    | (left; rfl)
    | (right
       rw [sim_disjoint _ _ _ (by decide) (by decide) (by decide)]
       exact round4_clamp_noise_le _ ((hb _).2))

lemma simK_ge (noise8 : ℚ) (h : -(1/10) ≤ noise8) :
    (3:ℚ)/10 ≤ calculate_similarity noise8 "kubernetes orchestration"
      "Kubernetes orchestration patterns" ∧
    (13:ℚ)/15 ≤ calculate_similarity noise8 "kubernetes orchestration"
      "Kubernetes orchestration patterns" := by
  rw [simK]
  have h2 : (13:ℚ)/15 ≤ max 0 (min 1 (2/3 + noise8 + 3/10)) :=
    le_clamp_of_le (by norm_num) (by linarith)
  exact ⟨by linarith, h2⟩

lemma kubernetes_mem_scored (noise : ℕ → ℚ) (h8 : -(1/10) ≤ noise 8) :
    ∃ kit : RelatedItem, kit ∈ scoredItems noise "kubernetes orchestration" (3/10) ∧
      kit.text = "Kubernetes orchestration patterns" ∧
      (13:ℚ)/15 - 1/20000 ≤ kit.score := by
  refine ⟨{ text := "Kubernetes orchestration patterns",
            score := round4 (calculate_similarity (noise 8) "kubernetes orchestration"
              "Kubernetes orchestration patterns"),
            category := "DevOps" }, ?_, rfl, ?_⟩
  · rw [scoredItems]
    apply List.mem_filterMap.mpr
    refine ⟨(8, { text := "Kubernetes orchestration patterns", category := "DevOps" }),
      by rw [enum_database]; decide, ?_⟩
    dsimp only []
    rw [if_pos (simK_ge (noise 8) h8).1]
  · have h1 := (simK_ge (noise 8) h8).2
    have h2 := le_round4 (calculate_similarity (noise 8) "kubernetes orchestration"
      "Kubernetes orchestration patterns")
    dsimp only []
    linarith

/-!
### Lemmas connecting the list-based word sets to finite sets
-/

lemma toFinset_dedup_list (l : List String) : l.dedup.toFinset = l.toFinset := by
  ext x
  simp [List.mem_dedup]

lemma card_filter_dedup (l : List String) (p : String → Bool) :
    (l.dedup.filter p).length = (l.toFinset.filter (fun w => p w = true)).card := by
  have h1 : (l.dedup.filter p).toFinset = l.toFinset.filter (fun w => p w = true) := by
    rw [List.toFinset_filter, toFinset_dedup_list]
  have h2 : (l.dedup.filter p).Nodup := (List.nodup_dedup l).filter p
  rw [← h1, List.card_toFinset, h2.dedup]

lemma inter_card_eq (q t : String) :
    ((wordSet q).filter (fun w => w ∈ wordSet t)).length =
      ((pyWords q).toFinset ∩ (pyWords t).toFinset).card := by
  unfold wordSet
  rw [card_filter_dedup]
  have h : Finset.filter (fun w => (decide (w ∈ (pyWords t).dedup)) = true)
        ((pyWords q).toFinset) =
      (pyWords q).toFinset ∩ (pyWords t).toFinset := by
    rw [← Finset.filter_mem_eq_inter]
    apply Finset.filter_congr
    intro x _
    simp [List.mem_dedup]
  rw [h]

lemma union_card_eq (q t : String) :
    (wordSet q).length + ((wordSet t).filter (fun w => w ∉ wordSet q)).length =
      ((pyWords q).toFinset ∪ (pyWords t).toFinset).card := by
  unfold wordSet
  have h1 : (pyWords q).dedup.length = (pyWords q).toFinset.card := by
    rw [List.card_toFinset]
  have h2 : ((pyWords t).dedup.filter (fun w => w ∉ (pyWords q).dedup)).length =
      ((pyWords t).toFinset \ (pyWords q).toFinset).card := by
    rw [card_filter_dedup, Finset.sdiff_eq_filter]
    congr 1
    apply Finset.filter_congr
    intro x _
    simp [List.mem_dedup]
  rw [h1, h2]
  calc (pyWords q).toFinset.card + ((pyWords t).toFinset \ (pyWords q).toFinset).card
      = ((pyWords t).toFinset \ (pyWords q).toFinset).card + (pyWords q).toFinset.card :=
        Nat.add_comm _ _
    _ = ((pyWords t).toFinset ∪ (pyWords q).toFinset).card :=
        Finset.card_sdiff_add_card _ _
    _ = ((pyWords q).toFinset ∪ (pyWords t).toFinset).card := by
        rw [Finset.union_comm]

lemma wordSet_nil_iff (s : String) : wordSet s = [] ↔ (pyWords s).toFinset = ∅ := by
  rw [wordSet, List.dedup_eq_nil, List.toFinset_eq_empty_iff]

/-!
### Lemmas about the orchestrator
-/

lemma multi_agent_ok_responses (confs delays : ℕ → ℚ) (q : String) (ac : Int) (t : ℚ)
    (r : MultiAgentResponse) (h : multi_agent_suggest confs delays q ac t = .ok r) :
    1 ≤ ac ∧ ac ≤ (AGENT_PROFILES.length : Int) ∧
      r.agent_responses = (AGENT_PROFILES.take ac.toNat).enum.map
        (fun p => agent_process (confs p.1) p.2 q) ∧
      r.consensus_score = (calculate_consensus r.agent_responses).2 := by
  rw [multi_agent_suggest] at h
  split at h
  · exact absurd h (by simp)
  · rename_i hrange
    dsimp only [] at h
    split at h
    · exact absurd h (by simp)
    · push_neg at hrange
      injection h with h
      subst h
      exact ⟨hrange.1, hrange.2, rfl, rfl⟩

lemma take_enum_map_length (confs : ℕ → ℚ) (q : String) (n : ℕ) :
    ((AGENT_PROFILES.take n).enum.map
      (fun p => agent_process (confs p.1) p.2 q)).length = min n 5 := by
  rw [List.length_map, List.enum_length, List.length_take]
  rfl

/-!
### The verified claims
-/

/-- C1: For every query, if both optional dependencies (Ranking Engine and
Worker Pool Orchestrator) are unreachable — both enrichment `Option`s are
`none` — the Aggregation Gateway's aggregate operation still returns a
non-empty response (for any requested `max_results ≥ 1`, which covers the
default of 5) containing only locally-generated items, whose provenance
tag is the gateway's local tag "suggestion", and `sources_used` is exactly
that singleton tag set; dependency failure never aborts the overall
request (`get_enhanced_suggestions` is total in the dependency outcomes). -/
theorem C1_local_only_resilience (query : String) (max_results : Int)
    (h : 1 ≤ max_results) :
    (get_enhanced_suggestions query max_results none none).suggestions ≠ [] ∧
      (∀ s ∈ (get_enhanced_suggestions query max_results none none).suggestions,
        s.source = "suggestion") ∧
      (get_enhanced_suggestions query max_results none none).sources_used =
        ["suggestion"] := by
  have e : get_enhanced_suggestions query max_results none none =
      { suggestions := pySlice max_results
          (sortByScoreDesc SuggestionItem.score (get_suggestions query max_results)),
        query := query,
        sources_used := ((pySlice max_results
          (sortByScoreDesc SuggestionItem.score (get_suggestions query max_results))).map
            SuggestionItem.source).dedup } := by
    rw [get_enhanced_suggestions]
    simp only [Option.getD_none, List.map_nil, List.append_nil]
  rw [e]
  have hbase_len : (get_suggestions query max_results).length = min max_results.toNat 5 := by
    rw [get_suggestions, List.length_map, List.enum_length, pySlice,
      if_pos (by omega : (0:Int) ≤ max_results), List.length_take]
    rfl
  have hbase_ne : get_suggestions query max_results ≠ [] := by
    have hlen : (get_suggestions query max_results).length ≠ 0 := by
      rw [hbase_len]
      omega
    exact fun hc => hlen (by rw [hc]; rfl)
  have hsort_ne : sortByScoreDesc SuggestionItem.score (get_suggestions query max_results) ≠ [] := by
    intro hc
    have hp := (sortByScoreDesc_perm SuggestionItem.score (get_suggestions query max_results)).length_eq
    rw [hc] at hp
    exact hbase_ne (List.length_eq_zero.mp hp.symm)
  have hfin_ne : pySlice max_results
      (sortByScoreDesc SuggestionItem.score (get_suggestions query max_results)) ≠ [] :=
    pySlice_ne_nil _ _ h hsort_ne
  have hsrc : ∀ s ∈ pySlice max_results
      (sortByScoreDesc SuggestionItem.score (get_suggestions query max_results)),
      s.source = "suggestion" := by
    intro s hs
    have hs1 : s ∈ sortByScoreDesc SuggestionItem.score (get_suggestions query max_results) :=
      (pySlice_sublist _ _).subset hs
    have hs2 : s ∈ get_suggestions query max_results :=
      ((sortByScoreDesc_perm _ _).mem_iff).mp hs1
    rw [get_suggestions] at hs2
    obtain ⟨p, _, hp⟩ := List.mem_map.mp hs2
    rw [← hp]
  refine ⟨hfin_ne, hsrc, ?_⟩
  apply dedup_eq_single
  · intro hc
    rw [List.map_eq_nil_iff] at hc
    exact hfin_ne hc
  · intro x hx
    obtain ⟨s, hs, hsx⟩ := List.mem_map.mp hx
    rw [← hsx]
    exact hsrc s hs

theorem C1_witness :
    (1:Int) ≤ 5 ∧
      ((get_enhanced_suggestions "cache" 5 none none).suggestions ≠ [] ∧
        (∀ s ∈ (get_enhanced_suggestions "cache" 5 none none).suggestions,
          s.source = "suggestion") ∧
        (get_enhanced_suggestions "cache" 5 none none).sources_used = ["suggestion"]) :=
  ⟨by norm_num, C1_local_only_resilience "cache" 5 (by norm_num)⟩

/-- C2: Every successful dispatch of the Worker Pool Orchestrator with
parameter `agent_count` (the request's worker count) returns exactly
`agent_count` results, and its `consensus_score` is the arithmetic mean of
the returned results' confidence values rounded to 4 decimal places.
Quantifying over `confs` and `delays` covers every possible random draw. -/
theorem C2_success_shape (confs delays : ℕ → ℚ) (query : String) (agent_count : Int)
    (timeout : ℚ) (r : MultiAgentResponse)
    (h : multi_agent_suggest confs delays query agent_count timeout = .ok r) :
    (r.agent_responses.length : Int) = agent_count ∧
      r.consensus_score =
        round4 ((r.agent_responses.map AgentResponse.confidence).sum /
          (r.agent_responses.length : ℚ)) := by
  obtain ⟨h1, h2, hresp, hscore⟩ := multi_agent_ok_responses confs delays query
    agent_count timeout r h
  have h5 : (AGENT_PROFILES.length : Int) = 5 := rfl
  have hlen : r.agent_responses.length = agent_count.toNat := by
    rw [hresp, take_enum_map_length]
    omega
  refine ⟨by omega, ?_⟩
  rw [hscore, calculate_consensus]
  have hne : r.agent_responses.isEmpty = false := by
    cases hcase : r.agent_responses with
    | nil => rw [hcase] at hlen; simp at hlen; omega
    | cons a t => rfl
  rw [hne]
  simp

theorem C2_witness :
    multi_agent_suggest (fun _ => 4/5) (fun _ => 1) "design a cache" 3 5 = .ok C2run ∧
      ((C2run.agent_responses.length : Int) = 3 ∧
        C2run.consensus_score =
          round4 ((C2run.agent_responses.map AgentResponse.confidence).sum /
            (C2run.agent_responses.length : ℚ))) :=
  ⟨by decide,
   C2_success_shape (fun _ => 4/5) (fun _ => 1) "design a cache" 3 5 C2run (by decide)⟩

/-- C3: For every `agent_count` outside `[1, N]`, where `N` is the number
of static worker profiles, the orchestrator's dispatch fails with the
`InvalidArgument` (HTTP 400) error.  The result is this error for every
possible confidence and delay draw, i.e. the failure is decided before any
worker runs and independently of the workers, with no side effects in the
model. -/
theorem C3_invalid_worker_count_rejected (confs delays : ℕ → ℚ) (query : String)
    (agent_count : Int) (timeout : ℚ)
    (h : agent_count < 1 ∨ (AGENT_PROFILES.length : Int) < agent_count) :
    multi_agent_suggest confs delays query agent_count timeout =
      .error .invalidArgument := by
  rw [multi_agent_suggest, if_pos h]

theorem C3_witness :
    ((0:Int) < 1 ∨ (AGENT_PROFILES.length : Int) < 0) ∧
      multi_agent_suggest (fun _ => 4/5) (fun _ => 1) "design a cache" 0 30 =
        .error .invalidArgument :=
  ⟨Or.inl (by decide),
   C3_invalid_worker_count_rejected (fun _ => 4/5) (fun _ => 1) "design a cache" 0 30
     (Or.inl (by decide))⟩

/-- C4: If the batch of dispatched workers would finish after the
`timeout` deadline (the largest drawn delay exceeds it), the dispatch
fails with the `DispatchTimeout` (HTTP 504) error, carrying no results at
all; and every successful dispatch returns exactly `agent_count` results —
never a strict subset (all-or-nothing join semantics). -/
theorem C4_timeout_all_or_nothing (confs delays : ℕ → ℚ) (query : String)
    (agent_count : Int) (timeout : ℚ) :
    (1 ≤ agent_count → agent_count ≤ (AGENT_PROFILES.length : Int) →
      timeout < batchElapsed delays (AGENT_PROFILES.take agent_count.toNat).length →
      multi_agent_suggest confs delays query agent_count timeout =
        .error .dispatchTimeout) ∧
    (∀ r : MultiAgentResponse,
      multi_agent_suggest confs delays query agent_count timeout = .ok r →
      (r.agent_responses.length : Int) = agent_count) := by
  constructor
  · intro h1 h2 h3
    rw [multi_agent_suggest, if_neg (by omega)]
    dsimp only []
    rw [if_pos h3]
  · intro r h
    obtain ⟨hge, hle, hresp, _⟩ := multi_agent_ok_responses confs delays query
      agent_count timeout r h
    have h5 : (AGENT_PROFILES.length : Int) = 5 := rfl
    have hlen : r.agent_responses.length = agent_count.toNat := by
      rw [hresp, take_enum_map_length]
      omega
    omega

theorem C4_witness :
    ((1:Int) ≤ 2 ∧ (2:Int) ≤ (AGENT_PROFILES.length : Int) ∧
      (3:ℚ) < batchElapsed (fun _ => 4) (AGENT_PROFILES.take (2:Int).toNat).length) ∧
    multi_agent_suggest (fun _ => 4/5) (fun _ => 4) "q" 2 3 = .error .dispatchTimeout :=
  ⟨⟨by norm_num, by decide, by decide⟩,
   (C4_timeout_all_or_nothing (fun _ => 4/5) (fun _ => 4) "q" 2 3).1
     (by norm_num) (by decide) (by decide)⟩

/-- C5 counterexample: the claim "every returned item has score ≥
threshold" fails as stated.  With threshold `0.30001` and a noise draw of
`0.00004` for the first corpus entry (and `-0.1` elsewhere), the first
entry's raw score `0.30004` passes the threshold test, but the *returned*
score is rounded to 4 decimal places first, giving `0.3 < 0.30001`. -/
theorem C5_counterexample :
    find_related (fun i => if i = 0 then 1/25000 else -1/10) "zzz" 5 (30001/100000) =
      .ok [{ text := "Machine learning algorithms for prediction", score := 3/10,
             category := "ML" }] ∧
    (3/10 : ℚ) < 30001/100000 :=
  ⟨by decide, by decide⟩

/-- C5 (amended): For every non-empty query, threshold and `max_results`,
every item returned by the Ranking Engine's rank operation has a
pre-rounding score ≥ threshold, so its stored 4-decimal score is at least
`threshold - 0.00005` (it may dip below the threshold itself by rounding);
the returned list is sorted non-increasing by score with ties kept in
original corpus order (equal-score items form a prefix of the equal-score
items of the corpus-ordered scored list); and when `max_results ≥ 0` the
length is at most `max_results` (a negative `max_results` instead
truncates from the end of the list, Python slice semantics). -/
theorem C5_rank_contract (noise : ℕ → ℚ) (query : String) (max_results : Int)
    (threshold : ℚ) (items : List RelatedItem)
    (h : find_related noise query max_results threshold = .ok items) :
    (∀ it ∈ items, threshold - 1/20000 ≤ it.score) ∧
      List.Sorted (fun a b => b.score ≤ a.score) items ∧
      (0 ≤ max_results → (items.length : Int) ≤ max_results) ∧
      (∀ s : ℚ, (items.filter (fun it => it.score = s)) <+:
        ((scoredItems noise query threshold).filter (fun it => it.score = s))) := by
  rw [find_related] at h
  split at h
  · exact absurd h (by simp)
  · injection h with h
    subst h
    refine ⟨?_, ?_, ?_, ?_⟩
    · intro it hit
      have h1 : it ∈ sortByScoreDesc RelatedItem.score (scoredItems noise query threshold) :=
        (pySlice_sublist _ _).subset hit
      have h2 : it ∈ scoredItems noise query threshold :=
        ((sortByScoreDesc_perm _ _).mem_iff).mp h1
      obtain ⟨p, _, hth, hb⟩ := mem_scoredItems _ _ _ _ h2
      have hsc : it.score = round4 (calculate_similarity (noise p.1) query p.2.text) := by
        rw [hb]
      rw [hsc]
      have := le_round4 (calculate_similarity (noise p.1) query p.2.text)
      linarith
    · exact List.Pairwise.sublist (pySlice_sublist _ _) (sortByScoreDesc_sorted _ _)
    · intro hnn
      exact length_pySlice_le _ _ hnn
    · intro s
      have hk : ∃ k, pySlice max_results
          (sortByScoreDesc RelatedItem.score (scoredItems noise query threshold)) =
          (sortByScoreDesc RelatedItem.score (scoredItems noise query threshold)).take k := by
        rw [pySlice]
        split
        · exact ⟨_, rfl⟩
        · exact ⟨_, rfl⟩
      obtain ⟨k, hk⟩ := hk
      rw [hk]
      have hstable := filter_sortByScoreDesc_of_const RelatedItem.score
        (fun it => it.score = s) s
        (fun a ha => of_decide_eq_true ha) (scoredItems noise query threshold)
      calc ((sortByScoreDesc RelatedItem.score (scoredItems noise query threshold)).take k).filter
            (fun it => it.score = s)
          <+: (sortByScoreDesc RelatedItem.score (scoredItems noise query threshold)).filter
            (fun it => it.score = s) := take_filter_pref _ _ _
        _ = (scoredItems noise query threshold).filter (fun it => it.score = s) := hstable

theorem C5_witness :
    find_related (fun _ => 0) "machine learning" 5 0 = .ok C5run ∧
      ((∀ it ∈ C5run, (0:ℚ) - 1/20000 ≤ it.score) ∧
        List.Sorted (fun a b => b.score ≤ a.score) C5run ∧
        ((0:Int) ≤ 5 → (C5run.length : Int) ≤ 5) ∧
        (∀ s : ℚ, (C5run.filter (fun it => it.score = s)) <+:
          ((scoredItems (fun _ => 0) "machine learning" 0).filter
            (fun it => it.score = s)))) :=
  ⟨by decide, C5_rank_contract (fun _ => 0) "machine learning" 5 0 C5run (by decide)⟩

/-- C6: For every query and candidate text and every noise draw, the code's
similarity score coincides with the spec's formula — the token-set overlap
ratio (intersection size over union size of the lower-cased
whitespace-tokenized word *sets*, here genuine finite sets) plus the
random perturbation plus the fixed bias 0.3, clamped into `[0,1]` — the
value always lies in `[0,1]`, and it is 0 whenever either word set is
empty. -/
theorem C6_similarity_spec (noise : ℚ) (query text : String) :
    calculate_similarity noise query text = specSimilarity noise query text ∧
      0 ≤ calculate_similarity noise query text ∧
      calculate_similarity noise query text ≤ 1 ∧
      ((wordSet query = [] ∨ wordSet text = []) →
        calculate_similarity noise query text = 0) := by
  have heq : calculate_similarity noise query text = specSimilarity noise query text := by
    rw [calculate_similarity_def, specSimilarity]
    by_cases hq : wordSet query = []
    · rw [if_pos (Or.inl hq), if_pos (Or.inl ((wordSet_nil_iff query).mp hq))]
    · by_cases ht : wordSet text = []
      · rw [if_pos (Or.inr ht), if_pos (Or.inr ((wordSet_nil_iff text).mp ht))]
      · have hq' : ¬ (pyWords query).toFinset = ∅ := fun hc =>
          hq ((wordSet_nil_iff query).mpr hc)
        have ht' : ¬ (pyWords text).toFinset = ∅ := fun hc =>
          ht ((wordSet_nil_iff text).mpr hc)
        rw [if_neg (show ¬(wordSet query = [] ∨ wordSet text = []) from
          not_or.mpr ⟨hq, ht⟩)]
        rw [if_neg (show ¬((pyWords query).toFinset = ∅ ∨ (pyWords text).toFinset = ∅) from
          not_or.mpr ⟨hq', ht'⟩)]
        have hu : (wordSet query).length +
            ((wordSet text).filter (fun w => w ∉ wordSet query)).length ≠ 0 := by
          have hpos : 0 < (wordSet query).length := List.length_pos.mpr hq
          omega
        rw [if_neg hu, inter_card_eq, union_card_eq]
  refine ⟨heq, ?_, ?_, ?_⟩
  · rw [calculate_similarity_def]
    split
    · exact le_refl 0
    · exact le_max_left 0 _
  · rw [calculate_similarity_def]
    split
    · norm_num
    · exact max_le (by norm_num) (min_le_left 1 _)
  · intro h
    rw [calculate_similarity_def, if_pos h]

theorem C6_witness :
    calculate_similarity (1/100) "deep learning" "Deep learning neural networks" =
        specSimilarity (1/100) "deep learning" "Deep learning neural networks" ∧
      0 ≤ calculate_similarity (1/100) "deep learning" "Deep learning neural networks" ∧
      calculate_similarity (1/100) "deep learning" "Deep learning neural networks" ≤ 1 ∧
      ((wordSet "deep learning" = [] ∨ wordSet "Deep learning neural networks" = []) →
        calculate_similarity (1/100) "deep learning" "Deep learning neural networks" = 0) :=
  C6_similarity_spec (1/100) "deep learning" "Deep learning neural networks"

/-- C7: For every draw of the bounded random perturbation (every noise
family with all values in `[-0.1, 0.1]`), calling the Ranking Engine with
query "kubernetes orchestration", `max_results = 2` and `threshold = 0.3`
against the fixed corpus succeeds and returns "Kubernetes orchestration
patterns" ranked first: its clamped score is at least `13/15`, while every
other candidate has no token overlap with the query and scores at most
`0.4`, so after 4-decimal rounding the gap still forces it to the head of
the descending sort. -/
theorem C7_kubernetes_first (noise : ℕ → ℚ)
    (hb : ∀ i, -(1/10) ≤ noise i ∧ noise i ≤ 1/10) :
    ∃ items, find_related noise "kubernetes orchestration" 2 (3/10) = .ok items ∧
      items.head?.map RelatedItem.text = some "Kubernetes orchestration patterns" := by
  have hopen : find_related noise "kubernetes orchestration" 2 (3/10) =
      .ok (pySlice 2 (sortByScoreDesc RelatedItem.score
        (scoredItems noise "kubernetes orchestration" (3/10)))) := by
    rw [find_related, if_neg (by decide)]
  refine ⟨_, hopen, ?_⟩
  obtain ⟨kit, hKmem, hKtext, hKscore⟩ := kubernetes_mem_scored noise (hb 8).1
  have hperm := sortByScoreDesc_perm RelatedItem.score
    (scoredItems noise "kubernetes orchestration" (3/10))
  have hSne : sortByScoreDesc RelatedItem.score
      (scoredItems noise "kubernetes orchestration" (3/10)) ≠ [] := by
    intro hc
    rw [hc] at hperm
    have hnil : scoredItems noise "kubernetes orchestration" (3/10) = [] :=
      List.perm_nil.mp hperm.symm
    rw [hnil] at hKmem
    exact absurd hKmem (List.not_mem_nil _)
  obtain ⟨x, xs, hxs⟩ := List.exists_cons_of_ne_nil hSne
  have hhead : (pySlice 2 (sortByScoreDesc RelatedItem.score
      (scoredItems noise "kubernetes orchestration" (3/10)))).head? =
      (sortByScoreDesc RelatedItem.score
        (scoredItems noise "kubernetes orchestration" (3/10))).head? := by
    rw [pySlice, if_pos (by norm_num)]
    exact headQ_take _ _ (by norm_num)
  rw [hhead, hxs]
  have hsorted := sortByScoreDesc_sorted RelatedItem.score
    (scoredItems noise "kubernetes orchestration" (3/10))
  rw [hxs] at hsorted
  have hmax : ∀ y ∈ (x :: xs), y.score ≤ x.score :=
    sorted_head_max RelatedItem.score x xs hsorted
  have hxmem : x ∈ scoredItems noise "kubernetes orchestration" (3/10) := by
    rw [← hperm.mem_iff, hxs]
    exact List.mem_cons_self x xs
  have hKS : kit ∈ (x :: xs) := by
    rw [← hxs, hperm.mem_iff]
    exact hKmem
  have hKle := hmax _ hKS
  rcases kubernetes_scored_classification noise hb x hxmem with htext | hbound
  · rw [List.head?_cons]
    simp only [Option.map_some']
    rw [htext]
  · exfalso
    linarith

theorem C7_witness :
    (∀ i : ℕ, -(1/10) ≤ (fun _ : ℕ => (0:ℚ)) i ∧ (fun _ : ℕ => (0:ℚ)) i ≤ 1/10) ∧
      (∃ items, find_related (fun _ => 0) "kubernetes orchestration" 2 (3/10) = .ok items ∧
        items.head?.map RelatedItem.text = some "Kubernetes orchestration patterns") :=
  ⟨fun _ => ⟨by norm_num, by norm_num⟩,
   C7_kubernetes_first (fun _ => 0) (fun _ => ⟨by norm_num, by norm_num⟩)⟩

/-- C8 counterexample: the claim "a request can never take effect with a
count exceeding the number of available profiles/candidates, nor with a
negative or zero count" fails for zero/negative counts: the gateway's
local suggestion request with `max_results = -1` takes effect and returns
a non-empty (4-element) list, and the voting endpoint's clamp leaves a
zero `voter_count` untouched, so a zero-voter request proceeds. -/
theorem C8_counterexample :
    get_suggestions "cache" (-1) ≠ [] ∧ effectiveVoterCount 0 = 0 :=
  ⟨by decide, by decide⟩

/-- C8 (amended): Counts exceeding available capacity never take effect —
the orchestrator rejects a `worker_count` outside `[1, N]` with
`InvalidArgument`, the voting endpoint clamps `voter_count` from above to
`N`, the gateway never returns more than its 5 local templates, and the
Ranking Engine never returns more than the corpus size.  However,
zero/negative counts are *not* guarded: a zero `max_results` yields an
empty list, a negative one truncates from the end (taking effect, possibly
non-empty), and a zero `voter_count` passes the clamp untouched. -/
theorem C8_capacity_clamps :
    (∀ (confs delays : ℕ → ℚ) (q : String) (t : ℚ) (ac : Int),
        (ac < 1 ∨ (AGENT_PROFILES.length : Int) < ac) →
        multi_agent_suggest confs delays q ac t = .error .invalidArgument) ∧
    (∀ vc : Int, (voteVoters vc).length ≤ AGENT_PROFILES.length) ∧
    (∀ (q : String) (mr : Int), (get_suggestions q mr).length ≤ 5) ∧
    (∀ (noise : ℕ → ℚ) (q : String) (mr : Int) (th : ℚ) (items : List RelatedItem),
        find_related noise q mr th = .ok items →
        items.length ≤ CONTENT_DATABASE.length) ∧
    (∀ q : String, get_suggestions q 0 = []) ∧
    (∀ q : String, get_suggestions q (-1) ≠ []) ∧
    effectiveVoterCount 0 = 0 := by
  refine ⟨?_, ?_, ?_, ?_, ?_, ?_, by decide⟩
  · intro confs delays q t ac hout
    rw [multi_agent_suggest, if_pos hout]
  · intro vc
    exact (pySlice_sublist _ _).length_le
  · intro q mr
    have h1 : (get_suggestions q mr).length = (pySlice mr (base_suggestions q)).length := by
      rw [get_suggestions, List.length_map, List.enum_length]
    rw [h1]
    have h2 := (pySlice_sublist mr (base_suggestions q)).length_le
    exact le_trans h2 (by rfl)
  · intro noise q mr th items h
    rw [find_related] at h
    split at h
    · exact absurd h (by simp)
    · injection h with h
      subst h
      have h2 := (pySlice_sublist mr (sortByScoreDesc RelatedItem.score
        (scoredItems noise q th))).length_le
      have h3 := (sortByScoreDesc_perm RelatedItem.score
        (scoredItems noise q th)).length_eq
      have h4 : (scoredItems noise q th).length ≤ CONTENT_DATABASE.enum.length :=
        List.length_filterMap_le _ _
      rw [List.enum_length] at h4
      omega
  · intro q
    rfl
  · intro q hc
    have h4 : (get_suggestions q (-1)).length = 4 := rfl
    rw [hc] at h4
    simp at h4

theorem C8_witness :
    ((7:Int) < 1 ∨ (AGENT_PROFILES.length : Int) < 7) ∧
      multi_agent_suggest (fun _ => 4/5) (fun _ => 1) "q" 7 30 =
        .error .invalidArgument :=
  ⟨Or.inr (by decide),
   C8_capacity_clamps.1 (fun _ => 4/5) (fun _ => 1) "q" 30 7 (Or.inr (by decide))⟩

/-- C9: For every worker profile and query, when the confidence draw lies
in `[0.7, 0.95]` (the range of the code's `random.uniform(0.7, 0.95)`),
the confidence of the produced worker result — the draw rounded to 4
decimal places — also lies in the closed interval `[0.7, 0.95]`, strictly
tighter than the `[0,1]` bound the spec states. -/
theorem C9_confidence_band (conf : ℚ) (profile : AgentProfile) (query : String)
    (h1 : 7/10 ≤ conf) (h2 : conf ≤ 19/20) :
    7/10 ≤ (agent_process conf profile query).confidence ∧
      (agent_process conf profile query).confidence ≤ 19/20 := by
  have e : (agent_process conf profile query).confidence = round4 conf := rfl
  rw [e]
  constructor
  · have h := round4_mono h1
    have e7 : round4 (7/10) = 7/10 := by decide
    rw [e7] at h
    exact h
  · have h := round4_mono h2
    have e9 : round4 (19/20) = 19/20 := by decide
    rw [e9] at h
    exact h

theorem C9_witness :
    (7/10 ≤ (4/5 : ℚ) ∧ (4/5 : ℚ) ≤ 19/20) ∧
      (7/10 ≤ (agent_process (4/5)
          ⟨"analyzer", "Analytical Agent", "Data analysis and logical reasoning",
            "analytical"⟩ "q").confidence ∧
        (agent_process (4/5)
          ⟨"analyzer", "Analytical Agent", "Data analysis and logical reasoning",
            "analytical"⟩ "q").confidence ≤ 19/20) :=
  ⟨⟨by norm_num, by norm_num⟩,
   C9_confidence_band (4/5) _ "q" (by norm_num) (by norm_num)⟩

/-- C10: For every query, the gateway's local suggestion operation accepts
`max_results ≤ 0` without any validation error (the function is total):
`max_results = 0` yields an empty list, while `max_results = -1` yields
the templated list truncated from the end — 4 of the 5 templates — so a
negative count returns strictly more items than a zero count
(Python negative-slice semantics). -/
theorem C10_gateway_slice_semantics (query : String) :
    get_suggestions query 0 = [] ∧
      (get_suggestions query (-1)).length = 4 ∧
      0 < (get_suggestions query (-1)).length := by
  refine ⟨rfl, rfl, ?_⟩
  rw [show (get_suggestions query (-1)).length = 4 from rfl]
  norm_num
